import Mathlib

/-!
GStreamer tutorial programs: dynamic pad routing and pipeline life cycle.

A shallow embedding of `basic-tutorial-2.c` and `basic-tutorial-3.c`.

Both programs are straight-line client code over the GStreamer/GLib API, so the
embedding records, for every C function, the sequence of API calls it issues
(a `List Call`, in program order) together with its result.  Everything the
framework decides (whether an element could be created, what a bus pop returns,
what a pad's current caps are, how a link attempt ends) is an input of the model.
-/

namespace GstTutorial

/-! ## Framework data -/

/-- Values of `GstPadLinkReturn` (gst/gstpad.h). -/
inductive GstPadLinkReturn
  | GST_PAD_LINK_OK
  | GST_PAD_LINK_WRONG_HIERARCHY
  | GST_PAD_LINK_WAS_LINKED
  | GST_PAD_LINK_WRONG_DIRECTION
  | GST_PAD_LINK_NOFORMAT
  | GST_PAD_LINK_NOSCHED
  | GST_PAD_LINK_REFUSED
  deriving DecidableEq, Repr

/-- Numeric value of a `GstPadLinkReturn` enumerator. -/
def GstPadLinkReturn.toInt : GstPadLinkReturn → Int
  | .GST_PAD_LINK_OK => 0
  | .GST_PAD_LINK_WRONG_HIERARCHY => -1
  | .GST_PAD_LINK_WAS_LINKED => -2
  | .GST_PAD_LINK_WRONG_DIRECTION => -3
  | .GST_PAD_LINK_NOFORMAT => -4
  | .GST_PAD_LINK_NOSCHED => -5
  | .GST_PAD_LINK_REFUSED => -6

/-- The macro `GST_PAD_LINK_FAILED(ret)`, i.e. `((ret) < GST_PAD_LINK_OK)`. -/
def GST_PAD_LINK_FAILED (ret : GstPadLinkReturn) : Bool :=
  decide (ret.toInt < GstPadLinkReturn.GST_PAD_LINK_OK.toInt)

/-- Values of `GstStateChangeReturn`. -/
inductive GstStateChangeReturn
  | GST_STATE_CHANGE_FAILURE
  | GST_STATE_CHANGE_SUCCESS
  | GST_STATE_CHANGE_ASYNC
  | GST_STATE_CHANGE_NO_PREROLL
  deriving DecidableEq, Repr

/-- Values of `GstState`. -/
inductive GstState
  | GST_STATE_VOID_PENDING
  | GST_STATE_NULL
  | GST_STATE_READY
  | GST_STATE_PAUSED
  | GST_STATE_PLAYING
  deriving DecidableEq, Repr

/-- The framework function `gst_element_state_get_name`. -/
def gst_element_state_get_name : GstState → String
  | .GST_STATE_VOID_PENDING => "VOID_PENDING"
  | .GST_STATE_NULL => "NULL"
  | .GST_STATE_READY => "READY"
  | .GST_STATE_PAUSED => "PAUSED"
  | .GST_STATE_PLAYING => "PLAYING"

/-- A `GstStructure`, reduced to its name (the media type). -/
structure GstStructure where
  name : String
  deriving DecidableEq, Repr

/-- A `GstCaps`: an array of structures. -/
structure GstCaps where
  structures : List GstStructure
  deriving DecidableEq, Repr

/-- The two static sink pads `pad_added_handler` fetches at entry:
`sink_pad` is the "sink" pad of `data->convert` (audio destination),
`video_sink_pad` the "sink" pad of `data->videosink` (video destination). -/
inductive SinkPad
  | sink_pad
  | video_sink_pad
  deriving DecidableEq, Repr

/-- Reference-counted objects the programs release with `gst_object_unref`. -/
inductive Obj
  | pipeline
  | bus
  | pad (p : SinkPad)
  deriving DecidableEq, Repr

/-- A bus message as far as the programs look at it: its type, and for an error the
name of `msg->src`, `err->message` and the debug string (`none` is `NULL`); for a
state change whether `GST_MESSAGE_SRC (msg)` is the pipeline, and the three states. -/
inductive GstMessage
  | error (src_name : String) (err_message : String) (debug_info : Option String)
  | eos
  | state_changed (from_pipeline : Bool) (old_state new_state pending_state : GstState)
  | other
  deriving DecidableEq, Repr

/-- The API calls issued by the programs, with the arguments that identify them.
A `none` argument is a `NULL` pointer. -/
inductive Call
  | gst_init
  | gst_element_factory_make (factoryname name : String)
  | gst_pipeline_new (name : String)
  | g_printerr (text : String)
  | g_print (text : String)
  | gst_bin_add_many (elements : List String)
  | gst_element_link_many (elements : List String)
  | g_object_set (object property value : String)
  | g_signal_connect (object signal handler : String)
  | gst_element_set_state (state : GstState)
  | gst_element_get_bus
  | gst_bus_timed_pop_filtered (types : List String)
  | gst_message_parse_error
  | g_clear_error
  | g_free
  | gst_message_parse_state_changed
  | gst_message_unref
  | gst_object_unref (o : Obj)
  | gst_element_get_static_pad (element name : String)
  | gst_pad_is_linked (p : SinkPad)
  | gst_pad_get_current_caps
  | gst_caps_get_structure (caps : Option GstCaps) (index : Nat)
  | gst_structure_get_name (structure_ : Option GstStructure)
  | str_has_pfx (str : Option String) (pfx : String)
  | gst_pad_link (sink : SinkPad)
  | gst_caps_unref
  deriving DecidableEq, Repr

/-- What `printf`-style `%s` prints for a string argument (`(null)` for `NULL`). -/
def fmt_s : Option String → String
  | some s => s
  | none => "(null)"

/-! ## Framework functions used by `pad_added_handler` -/

/-- Which of the two static sink pads currently have a peer.  This is the state
`gst_pad_is_linked` reads and a successful `gst_pad_link` writes. -/
structure Links where
  sink_pad_linked : Bool
  video_sink_pad_linked : Bool
  deriving DecidableEq, Repr

/-- The newly added source pad handed to the handler: its name, its current caps
(`none` when `gst_pad_get_current_caps` returns `NULL`), and the verdict the
framework reaches when asked to link it to a given free sink pad. -/
structure NewPad where
  name : String
  current_caps : Option GstCaps
  link_check : SinkPad → GstPadLinkReturn

/-- The framework function `gst_pad_is_linked` on one of the two sink pads. -/
def gst_pad_is_linked (w : Links) : SinkPad → Bool
  | .sink_pad => w.sink_pad_linked
  | .video_sink_pad => w.video_sink_pad_linked

/-- The framework function `gst_caps_get_structure`: the structure at `index`;
`NULL` when the caps pointer is `NULL` or the index is out of range (the
precondition checks of the library return `NULL`). -/
def gst_caps_get_structure (caps : Option GstCaps) (index : Nat) : Option GstStructure :=
  match caps with
  | none => none
  | some c => c.structures.get? index

/-- The framework function `gst_structure_get_name` (`NULL` on a `NULL` structure). -/
def gst_structure_get_name : Option GstStructure → Option String
  | none => none
  | some st => some st.name

/-- The GLib function `g_str_has_prefix`: whether `str` begins with `pfx`
(`FALSE` on a `NULL` string). -/
def g_str_has_prefix (str : Option String) (pfx : String) : Bool :=
  match str with
  | none => false
  | some s => pfx.toList.isPrefixOf s.toList

/-- The framework function `gst_pad_link (new_pad, sink)`: a sink pad that already
has a peer is refused with `GST_PAD_LINK_WAS_LINKED`; otherwise the framework's
verdict for this pair is returned, and on `GST_PAD_LINK_OK` the sink pad becomes
linked. -/
def gst_pad_link (new_pad : NewPad) (sink : SinkPad) (w : Links) : GstPadLinkReturn × Links :=
  if gst_pad_is_linked w sink then (.GST_PAD_LINK_WAS_LINKED, w)
  else
    match new_pad.link_check sink with
    | .GST_PAD_LINK_OK =>
      (.GST_PAD_LINK_OK,
        match sink with
        | .sink_pad => { w with sink_pad_linked := true }
        | .video_sink_pad => { w with video_sink_pad_linked := true })
    | r => (r, w)

namespace BasicTutorial3

/-! ## `pad_added_handler` (basic-tutorial-3.c) -/

/-- The code after the label `exit:`: unref the caps if the pointer is not `NULL`,
then unref both sink pads. -/
def handler_exit (new_pad_caps : Option GstCaps) : List Call :=
  (if new_pad_caps.isSome then [Call.gst_caps_unref] else []) ++
  [Call.gst_object_unref (.pad .sink_pad), Call.gst_object_unref (.pad .video_sink_pad)]

/-- The function `pad_added_handler (src, new_pad, data)`: the link state it leaves
and the API calls it issues.  `src_name` is `GST_ELEMENT_NAME (src)`. -/
def pad_added_handler (src_name : String) (new_pad : NewPad) (w : Links) : Links × List Call :=
  let entry : List Call :=
    [.gst_element_get_static_pad "convert" "sink",
     .gst_element_get_static_pad "videosink" "sink",
     .g_print ("Received new pad \x27" ++ new_pad.name ++ "\x27 from \x27" ++ src_name ++ "\x27:\n")]
  -- if (gst_pad_is_linked (sink_pad) && gst_pad_is_linked (video_sink_pad))
  let l1 := gst_pad_is_linked w .sink_pad
  let guard : List Call :=
    [.gst_pad_is_linked .sink_pad] ++ (if l1 then [.gst_pad_is_linked .video_sink_pad] else [])
  if l1 && gst_pad_is_linked w .video_sink_pad then
    (w, entry ++ guard ++
      [.g_print "We are already linked both audio and video. Ignoring.\n"] ++ handler_exit none)
  else
    let new_pad_caps := new_pad.current_caps
    let new_pad_struct := gst_caps_get_structure new_pad_caps 0
    let new_pad_type := gst_structure_get_name new_pad_struct
    let query : List Call :=
      [.gst_pad_get_current_caps,
       .gst_caps_get_structure new_pad_caps 0,
       .gst_structure_get_name new_pad_struct]
    -- if (!g_str_has_prefix (.., "audio/x-raw") && !g_str_has_prefix (.., "video/x-raw"))
    let a1 := g_str_has_prefix new_pad_type "audio/x-raw"
    let test : List Call :=
      [.str_has_pfx new_pad_type "audio/x-raw"] ++
      (if a1 then [] else [.str_has_pfx new_pad_type "video/x-raw"])
    if (not a1) && not ( g_str_has_prefix new_pad_type "video/x-raw") then
      (w, entry ++ guard ++ query ++ test ++
        [.g_print ("It has type \x27" ++ fmt_s new_pad_type ++
          "\x27 which is neither raw video nor raw video. Ignoring.\n")] ++
        handler_exit new_pad_caps)
    else
      -- Attempt the link
      let sink : SinkPad :=
        if g_str_has_prefix new_pad_type "audio/x-raw" then .sink_pad else .video_sink_pad
      let (ret, w1) := gst_pad_link new_pad sink w
      let report : String :=
        if GST_PAD_LINK_FAILED ret then
          "Type is \x27" ++ fmt_s new_pad_type ++ "\x27 but link failed.\n"
        else
          "Link succeeded (type \x27" ++ fmt_s new_pad_type ++ "\x27).\n"
      (w1, entry ++ guard ++ query ++ test ++
        [.str_has_pfx new_pad_type "audio/x-raw", .gst_pad_link sink, .g_print report] ++
        handler_exit new_pad_caps)

/-! ## `main` (basic-tutorial-3.c) -/

/-- What the framework answers to `main`: which creation calls return a non-`NULL`
object, whether `gst_element_link_many` succeeds, the result of the request for
the playing state, and the successive results of `gst_bus_timed_pop_filtered`
(`none` is a `NULL` message).  When that list is used up the next pop blocks
for ever. -/
structure Env where
  source : Bool
  convert : Bool
  resample : Bool
  sink : Bool
  videosink : Bool
  pipeline : Bool
  link_many : Bool
  set_state_ret : GstStateChangeReturn
  bus : List (Option GstMessage)

/-- The pop issued at the top of each iteration of the run loop. -/
def bus_pop : Call :=
  .gst_bus_timed_pop_filtered ["GST_MESSAGE_STATE_CHANGED", "GST_MESSAGE_ERROR", "GST_MESSAGE_EOS"]

/-- The `switch (GST_MESSAGE_TYPE (msg))` of the run loop: the calls of the selected
case and the value of `terminate` after it. -/
def parse_message (msg : GstMessage) (terminate : Bool) : List Call × Bool :=
  match msg with
  | .error src_name err_message debug_info =>
    ([.gst_message_parse_error,
      .g_printerr ("Error received from element " ++ src_name ++ ": " ++ err_message ++ "\n"),
      .g_printerr ("Debugging information: " ++
        (match debug_info with
         | some d => d
         | none => "none") ++ "\n"),
      .g_clear_error,
      .g_free], true)
  | .eos => ([.g_print "End-Of-Stream reached.\n"], true)
  | .state_changed from_pipeline old_state new_state _ =>
    (if from_pipeline then
      [.gst_message_parse_state_changed,
       .g_print ("Pipeline state changed from " ++ gst_element_state_get_name old_state ++
         " to " ++ gst_element_state_get_name new_state ++ ":\n")]
     else [], terminate)
  | .other => ([.g_printerr "Unexpected message received.\n"], terminate)

/-- The body of the `do ... while (!terminate)` loop after the pop has returned `msg`. -/
def loop_body (msg : Option GstMessage) (terminate : Bool) : List Call × Bool :=
  match msg with
  | none => ([], terminate)
  | some m =>
    let (calls, terminate1) := parse_message m terminate
    (calls ++ [.gst_message_unref], terminate1)

/-- The run loop `do ... while (!terminate)` over the successive pop results: the
calls issued, and whether the loop is left (`false`: the pop issued last never
returns). -/
def run_loop : List (Option GstMessage) → Bool → List Call × Bool
  | [], _ => ([bus_pop], false)
  | msg :: rest, terminate =>
    let (calls, terminate1) := loop_body msg terminate
    if not terminate1 then
      let (more, left) := run_loop rest terminate1
      (bus_pop :: calls ++ more, left)
    else
      (bus_pop :: calls, true)

/-- The calls of `main` up to and including `gst_pipeline_new`. -/
def create_calls : List Call :=
  [.gst_init,
   .gst_element_factory_make "uridecodebin" "source",
   .gst_element_factory_make "audioconvert" "convert",
   .gst_element_factory_make "audioresample" "resample",
   .gst_element_factory_make "autoaudiosink" "sink",
   .gst_element_factory_make "autovideosink" "videosink",
   .gst_pipeline_new "test-pipeline"]

/-- The function `main` of basic-tutorial-3.c: the calls it issues and its return
value (`none` when it never returns because the bus wait blocks for ever).
`pad_added_handler` is only registered here (`g_signal_connect`); the framework
invokes it from its own threads, so its calls are not part of this sequence. -/
def main (e : Env) : List Call × Option Int :=
  if not e.pipeline || not e.source || not e.convert || not e.resample
      || not e.sink || not e.videosink then
    (create_calls ++ [.g_printerr "Not all elements could be created.\n"], some (-1))
  else
    let add : List Call :=
      [.gst_bin_add_many ["source", "convert", "resample", "sink", "videosink"],
       .gst_element_link_many ["convert", "resample", "sink"]]
    if not e.link_many then
      (create_calls ++ add ++
        [.g_printerr "Elements could not be linked.\n", .gst_object_unref .pipeline], some (-1))
    else
      let start : List Call :=
        [.g_object_set "source" "uri" "file:///home/ts/Videos/Wonderland.mp4",
         .g_signal_connect "source" "pad-added" "pad_added_handler",
         .gst_element_set_state .GST_STATE_PLAYING]
      if e.set_state_ret = .GST_STATE_CHANGE_FAILURE then
        (create_calls ++ add ++ start ++
          [.g_printerr "Unable to set the pipeline to the playing state.\n",
           .gst_object_unref .pipeline], some (-1))
      else
        let (loop, left) := run_loop e.bus false
        if left then
          (create_calls ++ add ++ start ++ [.gst_element_get_bus] ++ loop ++
            [.gst_object_unref .bus, .gst_element_set_state .GST_STATE_NULL,
             .gst_object_unref .pipeline], some 0)
        else
          (create_calls ++ add ++ start ++ [.gst_element_get_bus] ++ loop, none)

end BasicTutorial3

namespace BasicTutorial2

/-! ## `main` (basic-tutorial-2.c) -/

/-- What the framework answers to `main`: which creation calls return a non-`NULL`
object, the result of the request for the playing state, and the result of the
single `gst_bus_timed_pop_filtered` (`none` is a `NULL` message). -/
structure Env where
  source : Bool
  sink : Bool
  filter : Bool
  convert : Bool
  pipeline : Bool
  set_state_ret : GstStateChangeReturn
  msg : Option GstMessage

/-- The calls of `main` up to and including `gst_pipeline_new`. -/
def create_calls : List Call :=
  [.gst_init,
   .gst_element_factory_make "videotestsrc" "source",
   .gst_element_factory_make "autovideosink" "sink",
   .gst_element_factory_make "vertigotv" "filter",
   .gst_element_factory_make "videoconvert" "convert",
   .gst_pipeline_new "test-pipeline"]

/-- The `if (msg != NULL)` block: the `switch` on the message type and the unref. -/
def parse_message (msg : Option GstMessage) : List Call :=
  match msg with
  | none => []
  | some m =>
    (match m with
     | .error src_name err_message debug_info =>
       [.gst_message_parse_error,
        .g_printerr ("Error received from element " ++ src_name ++ ": " ++ err_message ++ "\n"),
        .g_printerr ("Debugging information: " ++
          (match debug_info with
           | some d => d
           | none => "none") ++ "\n"),
        .g_clear_error,
        .g_free]
     | .eos => [.g_print "End-Of-Stream reached.\n"]
     | _ => [.g_printerr "Unexpected message received.\n"]) ++
    [.gst_message_unref]

/-- The function `main` of basic-tutorial-2.c: the calls it issues and its return value. -/
def main (e : Env) : List Call × Int :=
  if not e.pipeline || not e.source || not e.filter || not e.convert || not e.sink then
    (create_calls ++ [.g_printerr "Not all elements could be created.\n"], -1)
  else
    let build : List Call :=
      [.gst_bin_add_many ["source", "filter", "convert", "sink"],
       .gst_element_link_many ["source", "filter", "convert", "sink"],
       .g_object_set "source" "pattern" "0",
       .gst_element_set_state .GST_STATE_PLAYING]
    if e.set_state_ret = .GST_STATE_CHANGE_FAILURE then
      (create_calls ++ build ++
        [.g_printerr "Unable to set the pipeline to the playing state.\n",
         .gst_object_unref .pipeline], -1)
    else
      (create_calls ++ build ++
        [.gst_element_get_bus,
         .gst_bus_timed_pop_filtered ["GST_MESSAGE_ERROR", "GST_MESSAGE_EOS"]] ++
        parse_message e.msg ++
        [.gst_object_unref .bus, .gst_element_set_state .GST_STATE_NULL,
         .gst_object_unref .pipeline], 0)

end BasicTutorial2

/-! ## Observations on call sequences -/

/-- The calls of the resource-release sequence: a `gst_object_unref`, a
`gst_caps_unref`, or the request for the null state. -/
def is_release : Call → Bool
  | .gst_object_unref _ => true
  | .gst_caps_unref => true
  | .gst_element_set_state .GST_STATE_NULL => true
  | _ => false

/-- The releases of a call sequence, in order. -/
def releases (t : List Call) : List Call := t.filter is_release

/-- The full release sequence at the end of both `main` functions. -/
def release_sequence : List Call :=
  [.gst_object_unref .bus, .gst_element_set_state .GST_STATE_NULL, .gst_object_unref .pipeline]

/-- The attach attempts (`gst_pad_link`) of a call sequence: their targets, in order. -/
def link_targets : List Call → List SinkPad
  | [] => []
  | .gst_pad_link p :: t => p :: link_targets t
  | _ :: t => link_targets t

/-- Calls that acquire a reference in `pad_added_handler`: fetching a static pad,
fetching the current caps. -/
def is_acquisition : Call → Bool
  | .gst_element_get_static_pad _ _ => true
  | .gst_pad_get_current_caps => true
  | _ => false

/-- The acquisitions of a call sequence, in order. -/
def acquisitions (t : List Call) : List Call := t.filter is_acquisition

/-- Calls that inspect the caps or the type name of the new pad. -/
def is_inspection : Call → Bool
  | .gst_caps_get_structure _ _ => true
  | .gst_structure_get_name _ => true
  | .str_has_pfx _ _ => true
  | _ => false

/-- Calls that build or run the pipeline: adding or linking elements, a state
request, fetching the bus, waiting on the bus. -/
def is_run_call : Call → Bool
  | .gst_bin_add_many _ => true
  | .gst_element_link_many _ => true
  | .gst_element_set_state _ => true
  | .gst_element_get_bus => true
  | .gst_bus_timed_pop_filtered _ => true
  | _ => false

/-- The type name the handler computes for the new pad:
`gst_structure_get_name (gst_caps_get_structure (caps, 0))`. -/
def type_name (new_pad : NewPad) : Option String :=
  gst_structure_get_name (gst_caps_get_structure new_pad.current_caps 0)

/-- A pop result that ends the run loop of basic-tutorial-3: an error message or an
end-of-stream message. -/
def is_terminal : Option GstMessage → Bool
  | some (.error _ _ _) => true
  | some .eos => true
  | _ => false

/-- A call with the text of a `g_print` blanked. -/
def blank_print : Call → Call
  | .g_print _ => .g_print ""
  | c => c

/-! ## Theorems: `pad_added_handler` -/

namespace BasicTutorial3

theorem audio_pfx_toList :
    "audio/x-raw".toList = ['a', 'u', 'd', 'i', 'o', '/', 'x', '-', 'r', 'a', 'w'] := by rfl

theorem video_pfx_toList :
    "video/x-raw".toList = ['v', 'i', 'd', 'e', 'o', '/', 'x', '-', 'r', 'a', 'w'] := by rfl

/-- A string cannot begin with both recognised media types. -/
theorem not_audio_of_video (ty : String) (h : "video/x-raw".toList <+: ty.toList) :
    ¬ ("audio/x-raw".toList <+: ty.toList) := by
  rw [video_pfx_toList] at h
  rw [audio_pfx_toList]
  obtain ⟨t, ht⟩ := h
  rintro ⟨u, hu⟩
  rw [← ht] at hu
  simp at hu

theorem has_pfx_some (ty pfx : String) :
    ( g_str_has_prefix (some ty) pfx) = true ↔ pfx.toList <+: ty.toList := by
  simp [ g_str_has_prefix]

theorem link_targets_append (a b : List Call) :
    link_targets (a ++ b) = link_targets a ++ link_targets b := by
  induction a with
  | nil => rfl
  | cons c t ih => cases c <;> simp [link_targets, ih]

theorem link_targets_exit (caps : Option GstCaps) : link_targets (handler_exit caps) = [] := by
  cases caps <;> simp [handler_exit, link_targets]

theorem getLast_exit (t : List Call) (caps : Option GstCaps) :
    (t ++ handler_exit caps).getLast? = some (.gst_object_unref (.pad .video_sink_pad)) := by
  simp [handler_exit, List.getLast?_append]

theorem getLast_cons_exit (c : Call) (caps : Option GstCaps) :
    (c :: handler_exit caps).getLast? = some (.gst_object_unref (.pad .video_sink_pad)) :=
  getLast_exit [c] caps

/-- The short-circuit path: both sink pads already have a peer. -/
theorem handler_both_linked (src_name : String) (new_pad : NewPad) (w : Links)
    (h1 : w.sink_pad_linked = true) (h2 : w.video_sink_pad_linked = true) :
    pad_added_handler src_name new_pad w =
      (w, [.gst_element_get_static_pad "convert" "sink",
           .gst_element_get_static_pad "videosink" "sink",
           .g_print ("Received new pad \x27" ++ new_pad.name ++ "\x27 from \x27" ++
             src_name ++ "\x27:\n"),
           .gst_pad_is_linked .sink_pad,
           .gst_pad_is_linked .video_sink_pad,
           .g_print "We are already linked both audio and video. Ignoring.\n",
           .gst_object_unref (.pad .sink_pad),
           .gst_object_unref (.pad .video_sink_pad)]) := by
  simp [pad_added_handler, gst_pad_is_linked, handler_exit, h1, h2]

/-- C1, evaluated at the failing input: the audio destination already has a peer, the
video destination has none, and an audio-typed pad appears.  The handler still
issues `gst_pad_link` toward the audio destination (which the framework refuses,
so the handler prints the link-failed report). -/
theorem handler_relinks_linked_audio_pad :
    gst_pad_is_linked ⟨true, false⟩ .sink_pad = true ∧
    link_targets (pad_added_handler "source"
      ⟨"src_1", some ⟨[⟨"audio/x-raw"⟩]⟩, fun _ => .GST_PAD_LINK_OK⟩ ⟨true, false⟩).2
      = [.sink_pad] ∧
    Call.g_print "Type is \x27audio/x-raw\x27 but link failed.\n" ∈
      (pad_added_handler "source"
        ⟨"src_1", some ⟨[⟨"audio/x-raw"⟩]⟩, fun _ => .GST_PAD_LINK_OK⟩ ⟨true, false⟩).2 := by
  decide

/-- C2: for every link state and every new pad whose type name begins with neither
"audio/x-raw" nor "video/x-raw", the handler issues no `gst_pad_link`, leaves the
link state as it was, and runs to the end of the function (its last call is the
final `gst_object_unref (video_sink_pad)`). -/
theorem handler_ignores_other_types (src_name : String) (new_pad : NewPad) (w : Links)
    (ty : String) (hty : type_name new_pad = some ty)
    (ha : ¬ ("audio/x-raw".toList <+: ty.toList))
    (hv : ¬ ("video/x-raw".toList <+: ty.toList)) :
    link_targets (pad_added_handler src_name new_pad w).2 = [] ∧
    (pad_added_handler src_name new_pad w).1 = w ∧
    (pad_added_handler src_name new_pad w).2.getLast? =
      some (.gst_object_unref (.pad .video_sink_pad)) := by
  have ha1 : ( g_str_has_prefix (some ty) "audio/x-raw") = false := by
    rw [Bool.eq_false_iff, Ne, has_pfx_some]; exact ha
  have hv1 : ( g_str_has_prefix (some ty) "video/x-raw") = false := by
    rw [Bool.eq_false_iff, Ne, has_pfx_some]; exact hv
  unfold type_name at hty
  obtain ⟨l1, l2⟩ := w
  cases l1 <;> cases l2 <;>
    simp [pad_added_handler, gst_pad_is_linked, hty, ha1, hv1,
      link_targets, link_targets_append, link_targets_exit, getLast_cons_exit]

/-- C2 at a subtitle-typed pad, in a state where only the audio destination is linked. -/
theorem handler_ignores_other_types_witness :
    type_name ⟨"src_2", some ⟨[⟨"text/x-raw"⟩]⟩, fun _ => .GST_PAD_LINK_OK⟩ = some "text/x-raw" ∧
    link_targets (pad_added_handler "source"
      ⟨"src_2", some ⟨[⟨"text/x-raw"⟩]⟩, fun _ => .GST_PAD_LINK_OK⟩ ⟨true, false⟩).2 = [] ∧
    (pad_added_handler "source"
      ⟨"src_2", some ⟨[⟨"text/x-raw"⟩]⟩, fun _ => .GST_PAD_LINK_OK⟩ ⟨true, false⟩).1
      = ⟨true, false⟩ ∧
    (pad_added_handler "source"
      ⟨"src_2", some ⟨[⟨"text/x-raw"⟩]⟩, fun _ => .GST_PAD_LINK_OK⟩ ⟨true, false⟩).2.getLast? =
      some (.gst_object_unref (.pad .video_sink_pad)) :=
  ⟨by rfl, handler_ignores_other_types "source"
    ⟨"src_2", some ⟨[⟨"text/x-raw"⟩]⟩, fun _ => .GST_PAD_LINK_OK⟩ ⟨true, false⟩ "text/x-raw"
    (by rfl) (by decide) (by decide)⟩

/-- C3: when not both sink pads are linked, a pad whose type name begins with
"audio/x-raw" causes exactly one `gst_pad_link`, toward the converter sink pad, and
a pad whose type name begins with "video/x-raw" causes exactly one `gst_pad_link`,
toward the video sink pad. -/
theorem handler_links_matching_pad (src_name : String) (new_pad : NewPad) (w : Links)
    (ty : String)
    (hw : ¬ (w.sink_pad_linked = true ∧ w.video_sink_pad_linked = true))
    (hty : type_name new_pad = some ty) :
    ("audio/x-raw".toList <+: ty.toList →
      link_targets (pad_added_handler src_name new_pad w).2 = [.sink_pad]) ∧
    ("video/x-raw".toList <+: ty.toList →
      link_targets (pad_added_handler src_name new_pad w).2 = [.video_sink_pad]) := by
  unfold type_name at hty
  obtain ⟨l1, l2⟩ := w
  constructor
  · intro ha
    have ha1 : ( g_str_has_prefix (some ty) "audio/x-raw") = true := (has_pfx_some _ _).2 ha
    cases l1 <;> cases l2 <;>
      simp_all [pad_added_handler, gst_pad_is_linked, link_targets, link_targets_append,
        link_targets_exit]
  · intro hv
    have hv1 : ( g_str_has_prefix (some ty) "video/x-raw") = true := (has_pfx_some _ _).2 hv
    have ha1 : ( g_str_has_prefix (some ty) "audio/x-raw") = false := by
      rw [Bool.eq_false_iff, Ne, has_pfx_some]; exact not_audio_of_video ty hv
    cases l1 <;> cases l2 <;>
      simp_all [pad_added_handler, gst_pad_is_linked, link_targets, link_targets_append,
        link_targets_exit]

/-- C4: when both sink pads are already linked the handler makes no caps query, no
inspection of caps or type name and no `gst_pad_link`, and leaves the link state
unchanged. -/
theorem handler_noop_when_both_linked (src_name : String) (new_pad : NewPad) (w : Links)
    (h1 : w.sink_pad_linked = true) (h2 : w.video_sink_pad_linked = true) :
    Call.gst_pad_get_current_caps ∉ (pad_added_handler src_name new_pad w).2 ∧
    (pad_added_handler src_name new_pad w).2.filter is_inspection = [] ∧
    link_targets (pad_added_handler src_name new_pad w).2 = [] ∧
    (pad_added_handler src_name new_pad w).1 = w := by
  rw [handler_both_linked src_name new_pad w h1 h2]
  simp [is_inspection, link_targets]

/-- C5, evaluated at the failing input: no sink pad is linked and the new pad has no
current caps.  The handler passes the `NULL` caps to `gst_caps_get_structure`, the
`NULL` structure to `gst_structure_get_name` and the `NULL` name to both prefix
tests, and prints the type as `(null)`; it makes no `gst_pad_link`. -/
theorem handler_inspects_null_caps :
    (pad_added_handler "source" ⟨"src_0", none, fun _ => .GST_PAD_LINK_OK⟩
      ⟨false, false⟩).2.filter is_inspection =
      [.gst_caps_get_structure none 0, .gst_structure_get_name none,
       .str_has_pfx none "audio/x-raw", .str_has_pfx none "video/x-raw"] ∧
    Call.g_print
      "It has type \x27(null)\x27 which is neither raw video nor raw video. Ignoring.\n" ∈
      (pad_added_handler "source" ⟨"src_0", none, fun _ => .GST_PAD_LINK_OK⟩ ⟨false, false⟩).2 ∧
    link_targets (pad_added_handler "source" ⟨"src_0", none, fun _ => .GST_PAD_LINK_OK⟩
      ⟨false, false⟩).2 = [] := by
  decide

/-- C3 at an audio pad arriving while nothing is linked and at a video pad arriving
while only the audio destination is linked. -/
theorem handler_links_matching_pad_witness :
    link_targets (pad_added_handler "source"
      ⟨"src_0", some ⟨[⟨"audio/x-raw"⟩]⟩, fun _ => .GST_PAD_LINK_OK⟩ ⟨false, false⟩).2
      = [.sink_pad] ∧
    link_targets (pad_added_handler "source"
      ⟨"src_1", some ⟨[⟨"video/x-raw"⟩]⟩, fun _ => .GST_PAD_LINK_NOFORMAT⟩ ⟨true, false⟩).2
      = [.video_sink_pad] :=
  ⟨(handler_links_matching_pad "source"
      ⟨"src_0", some ⟨[⟨"audio/x-raw"⟩]⟩, fun _ => .GST_PAD_LINK_OK⟩ ⟨false, false⟩
      "audio/x-raw" (by decide) (by rfl)).1 (by decide),
   (handler_links_matching_pad "source"
      ⟨"src_1", some ⟨[⟨"video/x-raw"⟩]⟩, fun _ => .GST_PAD_LINK_NOFORMAT⟩ ⟨true, false⟩
      "video/x-raw" (by decide) (by rfl)).2 (by decide)⟩

/-- C4 at an audio pad arriving when both sink pads are linked. -/
theorem handler_noop_when_both_linked_witness :
    Call.gst_pad_get_current_caps ∉ (pad_added_handler "source"
      ⟨"src_3", some ⟨[⟨"audio/x-raw"⟩]⟩, fun _ => .GST_PAD_LINK_OK⟩ ⟨true, true⟩).2 ∧
    (pad_added_handler "source"
      ⟨"src_3", some ⟨[⟨"audio/x-raw"⟩]⟩, fun _ => .GST_PAD_LINK_OK⟩ ⟨true, true⟩).2.filter
      is_inspection = [] ∧
    link_targets (pad_added_handler "source"
      ⟨"src_3", some ⟨[⟨"audio/x-raw"⟩]⟩, fun _ => .GST_PAD_LINK_OK⟩ ⟨true, true⟩).2 = [] ∧
    (pad_added_handler "source"
      ⟨"src_3", some ⟨[⟨"audio/x-raw"⟩]⟩, fun _ => .GST_PAD_LINK_OK⟩ ⟨true, true⟩).1
      = ⟨true, true⟩ :=
  handler_noop_when_both_linked "source"
    ⟨"src_3", some ⟨[⟨"audio/x-raw"⟩]⟩, fun _ => .GST_PAD_LINK_OK⟩ ⟨true, true⟩ rfl rfl

/-- C9: the verdict of the link attempt changes nothing in the handler's call
sequence but the text of a `g_print`: for any two verdict functions `f` and `g`
the two runs issue the same calls up to printed text, perform the same releases,
both end with the final `gst_object_unref (video_sink_pad)`, and neither contains
a `gst_element_set_state`. -/
theorem handler_link_verdict_only_changes_report (src_name pad_name : String)
    (caps : Option GstCaps) (f g : SinkPad → GstPadLinkReturn) (w : Links) :
    (pad_added_handler src_name ⟨pad_name, caps, f⟩ w).2.map blank_print =
      (pad_added_handler src_name ⟨pad_name, caps, g⟩ w).2.map blank_print ∧
    releases (pad_added_handler src_name ⟨pad_name, caps, f⟩ w).2 =
      releases (pad_added_handler src_name ⟨pad_name, caps, g⟩ w).2 ∧
    (pad_added_handler src_name ⟨pad_name, caps, f⟩ w).2.getLast? =
      some (.gst_object_unref (.pad .video_sink_pad)) ∧
    (∀ st, Call.gst_element_set_state st ∉ (pad_added_handler src_name ⟨pad_name, caps, f⟩ w).2) := by
  obtain ⟨l1, l2⟩ := w
  cases l1 <;> cases l2 <;>
    cases ha : ( g_str_has_prefix (gst_structure_get_name (gst_caps_get_structure caps 0))
      "audio/x-raw") <;>
    cases hv : ( g_str_has_prefix (gst_structure_get_name (gst_caps_get_structure caps 0))
      "video/x-raw") <;>
    cases caps <;>
    simp_all [pad_added_handler, gst_pad_is_linked, handler_exit, blank_print, releases,
      is_release, List.getLast?_cons_cons]

/-- C10: on every path through the handler the references acquired are the two sink
pads, once each, and (unless both pads are already linked) the caps of the new pad;
the references released are the caps, once, exactly when they were fetched and are
not `NULL`, followed by each of the two sink pads once; nothing else is released. -/
theorem handler_releases_what_it_acquired (src_name : String) (new_pad : NewPad) (w : Links) :
    acquisitions (pad_added_handler src_name new_pad w).2 =
      [.gst_element_get_static_pad "convert" "sink",
       .gst_element_get_static_pad "videosink" "sink"] ++
      (if w.sink_pad_linked = true ∧ w.video_sink_pad_linked = true then []
       else [.gst_pad_get_current_caps]) ∧
    releases (pad_added_handler src_name new_pad w).2 =
      (if Call.gst_pad_get_current_caps ∈ acquisitions (pad_added_handler src_name new_pad w).2 ∧
          new_pad.current_caps.isSome = true then [.gst_caps_unref] else []) ++
      [.gst_object_unref (.pad .sink_pad), .gst_object_unref (.pad .video_sink_pad)] := by
  obtain ⟨l1, l2⟩ := w
  cases l1 <;> cases l2 <;>
    cases ha : ( g_str_has_prefix
      (gst_structure_get_name (gst_caps_get_structure new_pad.current_caps 0)) "audio/x-raw") <;>
    cases hv : ( g_str_has_prefix
      (gst_structure_get_name (gst_caps_get_structure new_pad.current_caps 0)) "video/x-raw") <;>
    cases hc : new_pad.current_caps <;>
    simp_all [pad_added_handler, gst_pad_is_linked, handler_exit, releases, is_release,
      acquisitions, is_acquisition]

/-! ## Theorems: the run loop and `main` -/

theorem loop_body_nonterminal (x : Option GstMessage) (h : is_terminal x = false) :
    (loop_body x false).2 = false ∧ (loop_body x false).1.count bus_pop = 0 ∧
    releases (loop_body x false).1 = [] := by
  rcases x with _ | m
  · simp [loop_body, releases]
  · cases m with
    | error a b c => simp [is_terminal] at h
    | eos => simp [is_terminal] at h
    | state_changed b o n q =>
      cases b <;> simp [loop_body, parse_message, releases, is_release, bus_pop]
    | other => simp [loop_body, parse_message, releases, is_release, bus_pop]

theorem run_loop_cons_nonterminal (x : Option GstMessage) (rest : List (Option GstMessage))
    (h : is_terminal x = false) :
    run_loop (x :: rest) false =
      (bus_pop :: (loop_body x false).1 ++ (run_loop rest false).1, (run_loop rest false).2) := by
  have h2 := (loop_body_nonterminal x h).1
  rw [run_loop]
  rcases hb : loop_body x false with ⟨calls, t1⟩
  rw [hb] at h2
  simp only at h2
  subst h2
  simp

theorem run_loop_cons_terminal (x : Option GstMessage) (rest : List (Option GstMessage))
    (h : is_terminal x = true) :
    run_loop (x :: rest) false = (bus_pop :: (loop_body x false).1, true) := by
  rcases x with _ | m
  · simp [is_terminal] at h
  · cases m with
    | error a b c => simp [run_loop, loop_body, parse_message]
    | eos => simp [run_loop, loop_body, parse_message]
    | state_changed b o n q => simp [is_terminal] at h
    | other => simp [is_terminal] at h

theorem releases_append (a b : List Call) : releases (a ++ b) = releases a ++ releases b := by
  simp [releases]

theorem releases_loop_body (x : Option GstMessage) : releases (loop_body x false).1 = [] := by
  rcases x with _ | m
  · simp [loop_body, releases]
  · cases m with
    | state_changed b o n q => cases b <;> simp [loop_body, parse_message, releases, is_release]
    | _ => simp [loop_body, parse_message, releases, is_release]

/-- The run loop issues no release. -/
theorem releases_run_loop (bus : List (Option GstMessage)) :
    releases (run_loop bus false).1 = [] := by
  induction bus with
  | nil => simp [run_loop, releases, is_release, bus_pop]
  | cons x rest ih =>
    cases hx : is_terminal x
    · rw [run_loop_cons_nonterminal x rest hx]
      have hb := releases_loop_body x
      simp only [releases] at hb ih ⊢
      simp [List.filter_cons, is_release, bus_pop, hb, ih]
    · rw [run_loop_cons_terminal x rest hx]
      have hb := releases_loop_body x
      simp only [releases] at hb ⊢
      simp [List.filter_cons, is_release, bus_pop, hb]

/-- The run loop is left as soon as the pop results contain a terminal message. -/
theorem run_loop_leaves (bus : List (Option GstMessage))
    (h : ∃ x ∈ bus, is_terminal x = true) : (run_loop bus false).2 = true := by
  induction bus with
  | nil => simp at h
  | cons x rest ih =>
    cases hx : is_terminal x
    · rw [run_loop_cons_nonterminal x rest hx]
      apply ih
      obtain ⟨y, hy, hyt⟩ := h
      rcases List.mem_cons.1 hy with rfl | hy
      · rw [hx] at hyt; cases hyt
      · exact ⟨y, hy, hyt⟩
    · rw [run_loop_cons_terminal x rest hx]

/-- The run loop up to a first error message: the calls before the last pop depend on
the messages before the error only, and there is one pop per such message. -/
theorem run_loop_until_error (pre : List (Option GstMessage)) (s m : String)
    (d : Option String) (hpre : ∀ x ∈ pre, is_terminal x = false) :
    ∃ t : List Call, t.count bus_pop = pre.length ∧
      ∀ post, run_loop (pre ++ some (.error s m d) :: post) false =
        (t ++ bus_pop :: (loop_body (some (.error s m d)) false).1, true) := by
  induction pre with
  | nil =>
    refine ⟨[], by simp, fun post => ?_⟩
    simp [run_loop, loop_body, parse_message]
  | cons x rest ih =>
    have hx : is_terminal x = false := hpre x (List.mem_cons_self _ _)
    obtain ⟨t, ht, hrun⟩ := ih (fun y hy => hpre y (List.mem_cons_of_mem _ hy))
    refine ⟨bus_pop :: (loop_body x false).1 ++ t, ?_, fun post => ?_⟩
    · have hc := (loop_body_nonterminal x hx).2.1
      simp [List.count_cons, List.count_append, hc, ht]
    · rw [List.cons_append, run_loop_cons_nonterminal x _ hx, hrun post]
      simp

/-- The shape of `main` once the pipeline is built and playing: everything after
`gst_element_get_bus` is the run loop, followed by the release sequence when the
loop is left. -/
theorem main_running (e : Env)
    (hc : e.pipeline = true ∧ e.source = true ∧ e.convert = true ∧ e.resample = true ∧
      e.sink = true ∧ e.videosink = true)
    (hl : e.link_many = true) (hs : e.set_state_ret ≠ .GST_STATE_CHANGE_FAILURE) :
    main e =
      if (run_loop e.bus false).2 = true then
        (create_calls ++
          [.gst_bin_add_many ["source", "convert", "resample", "sink", "videosink"],
           .gst_element_link_many ["convert", "resample", "sink"],
           .g_object_set "source" "uri" "file:///home/ts/Videos/Wonderland.mp4",
           .g_signal_connect "source" "pad-added" "pad_added_handler",
           .gst_element_set_state .GST_STATE_PLAYING,
           .gst_element_get_bus] ++ (run_loop e.bus false).1 ++ release_sequence, some 0)
      else
        (create_calls ++
          [.gst_bin_add_many ["source", "convert", "resample", "sink", "videosink"],
           .gst_element_link_many ["convert", "resample", "sink"],
           .g_object_set "source" "uri" "file:///home/ts/Videos/Wonderland.mp4",
           .g_signal_connect "source" "pad-added" "pad_added_handler",
           .gst_element_set_state .GST_STATE_PLAYING,
           .gst_element_get_bus] ++ (run_loop e.bus false).1, none) := by
  obtain ⟨h1, h2, h3, h4, h5, h6⟩ := hc
  rcases hr : run_loop e.bus false with ⟨loop, left⟩
  cases left <;> simp [main, h1, h2, h3, h4, h5, h6, hl, hs, hr, release_sequence]

end BasicTutorial3

/-- C6, refuted at the play-failure path of basic-tutorial-2 and at the link-failure
path of basic-tutorial-3: `main` returns -1 having released the pipeline reference
only; the bus is never released and the null state never requested. -/
theorem main_failure_paths_skip_release_sequence :
    (BasicTutorial2.main
      ⟨true, true, true, true, true, .GST_STATE_CHANGE_FAILURE, none⟩).2 = -1 ∧
    releases (BasicTutorial2.main
      ⟨true, true, true, true, true, .GST_STATE_CHANGE_FAILURE, none⟩).1
      = [.gst_object_unref .pipeline] ∧
    ¬ (release_sequence <:+ (BasicTutorial2.main
      ⟨true, true, true, true, true, .GST_STATE_CHANGE_FAILURE, none⟩).1) ∧
    (BasicTutorial3.main
      ⟨true, true, true, true, true, true, false, .GST_STATE_CHANGE_SUCCESS, []⟩).2
      = some (-1) ∧
    releases (BasicTutorial3.main
      ⟨true, true, true, true, true, true, false, .GST_STATE_CHANGE_SUCCESS, []⟩).1
      = [.gst_object_unref .pipeline] ∧
    ¬ (release_sequence <:+ (BasicTutorial3.main
      ⟨true, true, true, true, true, true, false, .GST_STATE_CHANGE_SUCCESS, []⟩).1) := by
  decide

/-- C6, amended: with all elements created, `main` of either program ends with the
release sequence (unref bus, null state, unref pipeline), and releases nothing
else, on the path that returns 0 after the bus wait; on failure to reach the
playing state, and in basic-tutorial-3 on failure of the static link, it returns
-1 having released the pipeline reference only. -/
theorem main_release_sequence_by_path (e2 : BasicTutorial2.Env) (e3 : BasicTutorial3.Env)
    (h2 : e2.pipeline = true ∧ e2.source = true ∧ e2.filter = true ∧ e2.convert = true ∧
      e2.sink = true)
    (h3 : e3.pipeline = true ∧ e3.source = true ∧ e3.convert = true ∧ e3.resample = true ∧
      e3.sink = true ∧ e3.videosink = true) :
    (e2.set_state_ret = .GST_STATE_CHANGE_FAILURE →
      (BasicTutorial2.main e2).2 = -1 ∧
      releases (BasicTutorial2.main e2).1 = [.gst_object_unref .pipeline]) ∧
    (e2.set_state_ret ≠ .GST_STATE_CHANGE_FAILURE →
      (BasicTutorial2.main e2).2 = 0 ∧
      release_sequence <:+ (BasicTutorial2.main e2).1 ∧
      releases (BasicTutorial2.main e2).1 = release_sequence) ∧
    (e3.link_many = false ∨ e3.set_state_ret = .GST_STATE_CHANGE_FAILURE →
      (BasicTutorial3.main e3).2 = some (-1) ∧
      releases (BasicTutorial3.main e3).1 = [.gst_object_unref .pipeline]) ∧
    (e3.link_many = true → e3.set_state_ret ≠ .GST_STATE_CHANGE_FAILURE →
      (∃ x ∈ e3.bus, is_terminal x = true) →
      (BasicTutorial3.main e3).2 = some 0 ∧
      release_sequence <:+ (BasicTutorial3.main e3).1 ∧
      releases (BasicTutorial3.main e3).1 = release_sequence) := by
  obtain ⟨a1, a2, a3, a4, a5⟩ := h2
  refine ⟨?_, ?_, ?_, ?_⟩
  · intro hf
    simp [BasicTutorial2.main, a1, a2, a3, a4, a5, hf, releases, is_release,
      BasicTutorial2.create_calls]
  · intro hf
    have hp : releases (BasicTutorial2.parse_message e2.msg) = [] := by
      rcases e2.msg with _ | m
      · simp [BasicTutorial2.parse_message, releases]
      · cases m <;> simp [BasicTutorial2.parse_message, releases, is_release]
    simp only [releases] at hp
    refine ⟨?_, ?_, ?_⟩
    · simp [BasicTutorial2.main, a1, a2, a3, a4, a5, hf]
    · refine ⟨BasicTutorial2.create_calls ++
        [.gst_bin_add_many ["source", "filter", "convert", "sink"],
         .gst_element_link_many ["source", "filter", "convert", "sink"],
         .g_object_set "source" "pattern" "0",
         .gst_element_set_state .GST_STATE_PLAYING,
         .gst_element_get_bus,
         .gst_bus_timed_pop_filtered ["GST_MESSAGE_ERROR", "GST_MESSAGE_EOS"]] ++
        BasicTutorial2.parse_message e2.msg, ?_⟩
      simp [BasicTutorial2.main, a1, a2, a3, a4, a5, hf, release_sequence]
    · simp [BasicTutorial2.main, a1, a2, a3, a4, a5, hf, releases, is_release,
        BasicTutorial2.create_calls, release_sequence, hp]
  · obtain ⟨b1, b2, b3, b4, b5, b6⟩ := h3
    intro hf
    cases hl : e3.link_many
    · simp [BasicTutorial3.main, b1, b2, b3, b4, b5, b6, hl, releases, is_release,
        BasicTutorial3.create_calls]
    · rcases hf with hf | hf
      · rw [hl] at hf; cases hf
      · simp [BasicTutorial3.main, b1, b2, b3, b4, b5, b6, hl, hf, releases, is_release,
          BasicTutorial3.create_calls]
  · intro hl hs hx
    have hleft := BasicTutorial3.run_loop_leaves e3.bus hx
    have hrel := BasicTutorial3.releases_run_loop e3.bus
    rw [BasicTutorial3.main_running e3 h3 hl hs, if_pos hleft]
    refine ⟨rfl, ?_, ?_⟩
    · exact List.suffix_append _ _
    · simp only [releases] at hrel
      simp [releases, is_release, BasicTutorial3.create_calls, release_sequence, hrel]

/-- C6 (amended) at a run of basic-tutorial-2 that ends on end-of-stream and a run of
basic-tutorial-3 that sees a state change and then end-of-stream. -/
theorem main_release_sequence_by_path_witness :
    ((BasicTutorial2.main
        ⟨true, true, true, true, true, .GST_STATE_CHANGE_SUCCESS, some .eos⟩).2 = 0 ∧
      release_sequence <:+ (BasicTutorial2.main
        ⟨true, true, true, true, true, .GST_STATE_CHANGE_SUCCESS, some .eos⟩).1 ∧
      releases (BasicTutorial2.main
        ⟨true, true, true, true, true, .GST_STATE_CHANGE_SUCCESS, some .eos⟩).1
        = release_sequence) ∧
    ((BasicTutorial3.main
        ⟨true, true, true, true, true, true, true, .GST_STATE_CHANGE_ASYNC,
          [some (.state_changed true .GST_STATE_NULL .GST_STATE_READY .GST_STATE_VOID_PENDING),
           some .eos]⟩).2 = some 0 ∧
      release_sequence <:+ (BasicTutorial3.main
        ⟨true, true, true, true, true, true, true, .GST_STATE_CHANGE_ASYNC,
          [some (.state_changed true .GST_STATE_NULL .GST_STATE_READY .GST_STATE_VOID_PENDING),
           some .eos]⟩).1 ∧
      releases (BasicTutorial3.main
        ⟨true, true, true, true, true, true, true, .GST_STATE_CHANGE_ASYNC,
          [some (.state_changed true .GST_STATE_NULL .GST_STATE_READY .GST_STATE_VOID_PENDING),
           some .eos]⟩).1 = release_sequence) :=
  ⟨(main_release_sequence_by_path
      ⟨true, true, true, true, true, .GST_STATE_CHANGE_SUCCESS, some .eos⟩
      ⟨true, true, true, true, true, true, true, .GST_STATE_CHANGE_ASYNC,
        [some (.state_changed true .GST_STATE_NULL .GST_STATE_READY .GST_STATE_VOID_PENDING),
         some .eos]⟩
      (by decide) (by decide)).2.1 (by decide),
   (main_release_sequence_by_path
      ⟨true, true, true, true, true, .GST_STATE_CHANGE_SUCCESS, some .eos⟩
      ⟨true, true, true, true, true, true, true, .GST_STATE_CHANGE_ASYNC,
        [some (.state_changed true .GST_STATE_NULL .GST_STATE_READY .GST_STATE_VOID_PENDING),
         some .eos]⟩
      (by decide) (by decide)).2.2.2 (by decide) (by decide)
      ⟨some .eos, by decide, by decide⟩⟩

/-- C7: in both programs, when one of the creation calls returns `NULL`, `main` issues
only the creation calls and the report "Not all elements could be created." and
returns -1: no element is added or linked, no state is requested, the bus is
neither fetched nor waited on. -/
theorem main_aborts_when_creation_fails (e2 : BasicTutorial2.Env) (e3 : BasicTutorial3.Env)
    (h2 : e2.pipeline = false ∨ e2.source = false ∨ e2.filter = false ∨ e2.convert = false ∨
      e2.sink = false)
    (h3 : e3.pipeline = false ∨ e3.source = false ∨ e3.convert = false ∨
      e3.resample = false ∨ e3.sink = false ∨ e3.videosink = false) :
    BasicTutorial2.main e2 =
      (BasicTutorial2.create_calls ++
        [.g_printerr "Not all elements could be created.\n"], -1) ∧
    (BasicTutorial2.main e2).1.filter is_run_call = [] ∧
    BasicTutorial3.main e3 =
      (BasicTutorial3.create_calls ++
        [.g_printerr "Not all elements could be created.\n"], some (-1)) ∧
    (BasicTutorial3.main e3).1.filter is_run_call = [] := by
  have m2 : BasicTutorial2.main e2 =
      (BasicTutorial2.create_calls ++
        [.g_printerr "Not all elements could be created.\n"], -1) := by
    rcases h2 with h | h | h | h | h <;> simp [BasicTutorial2.main, h]
  have m3 : BasicTutorial3.main e3 =
      (BasicTutorial3.create_calls ++
        [.g_printerr "Not all elements could be created.\n"], some (-1)) := by
    rcases h3 with h | h | h | h | h | h <;> simp [BasicTutorial3.main, h]
  refine ⟨m2, ?_, m3, ?_⟩
  · rw [m2]; decide
  · rw [m3]; decide

/-- C7 at a basic-tutorial-2 run where the filter is missing and a basic-tutorial-3 run
where the video sink is missing. -/
theorem main_aborts_when_creation_fails_witness :
    BasicTutorial2.main ⟨true, true, false, true, true, .GST_STATE_CHANGE_SUCCESS, some .eos⟩ =
      (BasicTutorial2.create_calls ++
        [.g_printerr "Not all elements could be created.\n"], -1) ∧
    (BasicTutorial2.main
      ⟨true, true, false, true, true, .GST_STATE_CHANGE_SUCCESS, some .eos⟩).1.filter
      is_run_call = [] ∧
    BasicTutorial3.main
      ⟨true, true, true, true, false, true, true, .GST_STATE_CHANGE_ASYNC, [some .eos]⟩ =
      (BasicTutorial3.create_calls ++
        [.g_printerr "Not all elements could be created.\n"], some (-1)) ∧
    (BasicTutorial3.main
      ⟨true, true, true, true, false, true, true, .GST_STATE_CHANGE_ASYNC,
        [some .eos]⟩).1.filter is_run_call = [] :=
  main_aborts_when_creation_fails
    ⟨true, true, false, true, true, .GST_STATE_CHANGE_SUCCESS, some .eos⟩
    ⟨true, true, true, true, false, true, true, .GST_STATE_CHANGE_ASYNC, [some .eos]⟩
    (by decide) (by decide)

/-- C8: when basic-tutorial-3 is playing and the pop results are `pre`, then an error
message, then `post`, with no error and no end-of-stream in `pre`, `main` returns 0
after exactly `pre.length + 1` pops (so nothing of `post` is consumed, and the
run does not depend on `post`), prints the name of the message source and the
error text, and ends with unref bus, null state, unref pipeline, which are its
only releases. -/
theorem main_stops_at_first_error (e : BasicTutorial3.Env)
    (pre post : List (Option GstMessage)) (s m : String) (d : Option String)
    (hc : e.pipeline = true ∧ e.source = true ∧ e.convert = true ∧ e.resample = true ∧
      e.sink = true ∧ e.videosink = true)
    (hl : e.link_many = true) (hs : e.set_state_ret ≠ .GST_STATE_CHANGE_FAILURE)
    (hbus : e.bus = pre ++ some (.error s m d) :: post)
    (hpre : ∀ x ∈ pre, is_terminal x = false) :
    (BasicTutorial3.main e).2 = some 0 ∧
    (BasicTutorial3.main e).1.count BasicTutorial3.bus_pop = pre.length + 1 ∧
    Call.g_printerr ("Error received from element " ++ s ++ ": " ++ m ++ "\n") ∈
      (BasicTutorial3.main e).1 ∧
    release_sequence <:+ (BasicTutorial3.main e).1 ∧
    releases (BasicTutorial3.main e).1 = release_sequence ∧
    BasicTutorial3.main { e with bus := pre ++ [some (.error s m d)] } =
      BasicTutorial3.main e := by
  obtain ⟨t, ht, hrun⟩ := BasicTutorial3.run_loop_until_error pre s m d hpre
  have hrel := BasicTutorial3.releases_run_loop e.bus
  have hmain := BasicTutorial3.main_running e hc hl hs
  have hmain1 := BasicTutorial3.main_running
    { e with bus := pre ++ [some (.error s m d)] } hc hl hs
  simp only [hbus, hrun post, if_true] at hmain hrel
  simp only [hrun [], if_true] at hmain1
  rw [hmain1, hmain]
  refine ⟨rfl, ?_, ?_, ?_, ?_, rfl⟩
  · have h0 : (BasicTutorial3.create_calls ++
        [Call.gst_bin_add_many ["source", "convert", "resample", "sink", "videosink"],
         Call.gst_element_link_many ["convert", "resample", "sink"],
         Call.g_object_set "source" "uri" "file:///home/ts/Videos/Wonderland.mp4",
         Call.g_signal_connect "source" "pad-added" "pad_added_handler",
         Call.gst_element_set_state GstState.GST_STATE_PLAYING,
         Call.gst_element_get_bus]).count BasicTutorial3.bus_pop = 0 := by decide
    have h1 : (BasicTutorial3.bus_pop ::
        (BasicTutorial3.loop_body (some (.error s m d)) false).1).count
        BasicTutorial3.bus_pop = 1 := by
      simp [BasicTutorial3.loop_body, BasicTutorial3.parse_message, BasicTutorial3.bus_pop]
    have h2 : release_sequence.count BasicTutorial3.bus_pop = 0 := by decide
    simp only [List.count_append, h0, h1, h2, ht]
    omega
  · simp [BasicTutorial3.loop_body, BasicTutorial3.parse_message]
  · exact List.suffix_append _ _
  · have h0 : releases (BasicTutorial3.create_calls ++
        [Call.gst_bin_add_many ["source", "convert", "resample", "sink", "videosink"],
         Call.gst_element_link_many ["convert", "resample", "sink"],
         Call.g_object_set "source" "uri" "file:///home/ts/Videos/Wonderland.mp4",
         Call.g_signal_connect "source" "pad-added" "pad_added_handler",
         Call.gst_element_set_state GstState.GST_STATE_PLAYING,
         Call.gst_element_get_bus]) = [] := by decide
    have h2 : releases release_sequence = release_sequence := by decide
    simp only [BasicTutorial3.releases_append, h0, hrel, h2, List.nil_append]

/-- C8 at a run that sees a pipeline state change, a `NULL` pop result and then an
error from the source element, with an end-of-stream message queued behind it. -/
theorem main_stops_at_first_error_witness :
    (BasicTutorial3.main
      ⟨true, true, true, true, true, true, true, .GST_STATE_CHANGE_ASYNC,
        [some (.state_changed true .GST_STATE_NULL .GST_STATE_READY .GST_STATE_VOID_PENDING),
         none] ++ some (.error "source" "Resource not found." none) :: [some .eos]⟩).2
      = some 0 ∧
    (BasicTutorial3.main
      ⟨true, true, true, true, true, true, true, .GST_STATE_CHANGE_ASYNC,
        [some (.state_changed true .GST_STATE_NULL .GST_STATE_READY .GST_STATE_VOID_PENDING),
         none] ++ some (.error "source" "Resource not found." none) :: [some .eos]⟩).1.count
      BasicTutorial3.bus_pop = 3 :=
  let h := main_stops_at_first_error
    ⟨true, true, true, true, true, true, true, .GST_STATE_CHANGE_ASYNC,
      [some (.state_changed true .GST_STATE_NULL .GST_STATE_READY .GST_STATE_VOID_PENDING),
       none] ++ some (.error "source" "Resource not found." none) :: [some .eos]⟩
    [some (.state_changed true .GST_STATE_NULL .GST_STATE_READY .GST_STATE_VOID_PENDING), none]
    [some .eos] "source" "Resource not found." none
    (by decide) (by decide) (by decide) rfl (by decide)
  ⟨h.1, h.2.1⟩

end GstTutorial
